import Mathlib

/-!
Verification of the Workflow Tool invocation bridge (the ToolWorkflow node's
supplyData: its inner runFunction and the DynamicTool func it returns).

The bridge's own logic is embedded from the source.  External collaborators
(the JSON parser, the Set-node merge transform, the execution engine, and the
host's provenance methods addInputData / addOutputData) are modelled as an
environment of functions, so every theorem is quantified over all collaborator
behaviours.
-/

set_option autoImplicit false

/-- JSON-like runtime values: the loosely structured data flowing between the
bridge and its collaborators.  Numbers are modelled as integers. -/
inductive JValue where
  | vStr (s : String)
  | vNum (n : Int)
  | vBool (b : Bool)
  | vObj (fields : List (String × JValue))
  | vArr (elems : List JValue)
  | vNull
deriving Repr

/-- JavaScript typeof on a JValue: arrays and null report "object". -/
def jsTypeof : JValue → String
  | JValue.vStr _ => "string"
  | JValue.vNum _ => "number"
  | JValue.vBool _ => "boolean"
  | JValue.vObj _ => "object"
  | JValue.vArr _ => "object"
  | JValue.vNull => "object"

/-- Decimal string form of a number, as produced by Number.toString. -/
def numToString (n : Int) : String := toString n

/-- One configured field override from the fields.values collection:
name, declared kind (stringValue, numberValue, booleanValue, arrayValue,
objectValue), and the raw unevaluated value string. -/
structure SetField where
  name : String
  type : String
  objectValue : String
deriving Repr

/-- Node configuration surface read via getNodeParameter. -/
structure Config where
  source : String
  responsePropertyName : String
  workflowId : String
  workflowJson : String
  fields : List SetField
deriving Repr

/-- IExecuteWorkflowInfo: either a database id or inline parsed code. -/
structure WorkflowInfo where
  id : Option String
  code : Option JValue
deriving Repr

/-- Errors thrown inside the bridge: NodeOperationError carries the invoking
node's identity and a message; raw errors come from collaborators. -/
inductive ThrownErr where
  | nodeOp (node : String) (message : String)
  | raw (message : String)
deriving Repr

/-- Message carried by a thrown error. -/
def ThrownErr.message : ThrownErr → String
  | ThrownErr.nodeOp _ m => m
  | ThrownErr.raw m => m

/-- Modelled from the spec: the external collaborators at their boundary
(section 6).  jsonParse is the host JSON parser; mergeExecute is the external
Set-node merge transform manual.execute, receiving the base item, the override
list and the raw-data record; executeWorkflow is the execution engine's single
execute operation.  Each may fail with an inspectable message. -/
structure Env where
  node : String
  jsonParse : String → Except String JValue
  mergeExecute : JValue → List SetField → List (String × JValue) → Except String JValue
  executeWorkflow : WorkflowInfo → List JValue → Except String JValue

/-- Lookup of a key in an object's field list (first match). -/
def lookupKey (m : List (String × JValue)) (k : String) : Option JValue :=
  match m with
  | [] => none
  | (k2, v) :: rest => if k2 = k then some v else lookupKey rest k

/-- Replacement of an entry with the given key by the new pair, other entries
unchanged. -/
def assignEntry (k : String) (v : JValue) (p : String × JValue) : String × JValue :=
  if p.1 = k then (k, v) else p

/-- JavaScript property assignment on a record: replace the value in place if
the key exists, otherwise append the new entry. -/
def setKey (m : List (String × JValue)) (k : String) (v : JValue) :
    List (String × JValue) :=
  if m.any (fun p => p.1 = k) then m.map (assignEntry k v) else m ++ [(k, v)]

/-- Check of the startsWith test on the expression marker, on the string's
character sequence. -/
def startsWithMarker (s : String) : Bool :=
  match s.data with
  | [] => false
  | c :: _ => c = '='

/-- Strip all leading expression markers, as the replace of the anchored
one-or-more-markers pattern with the empty string does. -/
def stripMarkers (s : String) : String :=
  String.mk (s.data.dropWhile (fun c => c = '='))

/-- One step of the copied Set-node loop: an objectValue entry whose raw value
starts with an expression marker is assigned, markers stripped and
unevaluated, under its name; every other entry leaves the record unchanged. -/
def applyField (m : List (String × JValue)) (e : SetField) :
    List (String × JValue) :=
  if e.type = "objectValue" ∧ startsWithMarker e.objectValue = true then
    setKey m e.name (JValue.vStr (stripMarkers e.objectValue))
  else m

/-- The rawData record handed to the merge transform: starts as the record
mapping query to the agent's query, then runs the copied Set-node loop over
the configured overrides in order. -/
def composeRawData (query : String) (fields : List SetField) :
    List (String × JValue) :=
  fields.foldl applyField [("query", JValue.vStr query)]

/-- The base item handed to the merge transform: json wrapping the query. -/
def baseItem (query : String) : JValue :=
  JValue.vObj [("json", JValue.vObj [("query", JValue.vStr query)])]

/-- Path keys for the lodash-style tolerant nested lookup. -/
inductive PathKey where
  | idx (n : Nat)
  | key (k : String)
deriving Repr

/-- One level of the tolerant lookup: an index into an array or a key into an
object; any mismatch yields absent. -/
def jvGetStep (v : JValue) (p : PathKey) : Option JValue :=
  match v, p with
  | JValue.vArr xs, PathKey.idx n => xs.get? n
  | JValue.vObj fs, PathKey.key k => lookupKey fs k
  | _, _ => none

/-- Tolerant nested lookup along a path: absent at any level propagates to
absent overall, never raising. -/
def jvGet (v : JValue) (path : List PathKey) : Option JValue :=
  match path with
  | [] => some v
  | p :: rest =>
    match jvGetStep v p with
    | none => none
    | some v2 => jvGet v2 rest

/-- The extraction path used on the engine's result: first branch, first item,
the json mapping, then the configured response property. -/
def responsePath (name : String) : List PathKey :=
  [PathKey.idx 0, PathKey.idx 0, PathKey.key "json", PathKey.key name]

/-- Message of the ConfigurationError raised on an unparseable inline
workflow document. -/
def notValidJsonMsg (m : String) : String :=
  "The provided workflow is not valid JSON: \"" ++ m ++ "\""

/-- Message of the MissingResponseFieldError; note it already carries the
error-response template around its own text. -/
def missingFieldMsg (p : String) : String :=
  "There was an error: \"The workflow did not return an item with the property \x27" ++ p ++ "\x27\""

/-- Message of the InvalidResponseTypeError, naming the runtime type. -/
def invalidTypeMsg (t : String) : String :=
  "The code did not return a valid value. Instead of a string did a value of type \x27" ++ t ++ "\x27 get returned."

/-- Textual fallback the adapter returns for a failed invocation. -/
def errorResponseText (m : String) : String :=
  "There was an error: \"" ++ m ++ "\""

/-- Workflow reference resolution: database yields the stored id, parameter
parses the inline document (a parse failure throws a NodeOperationError with
the parser's message), anything else leaves the info empty. -/
def resolveWorkflowInfo (env : Env) (cfg : Config) : Except ThrownErr WorkflowInfo :=
  if cfg.source = "database" then
    Except.ok { id := some cfg.workflowId, code := none }
  else if cfg.source = "parameter" then
    match env.jsonParse cfg.workflowJson with
    | Except.ok code => Except.ok { id := none, code := some code }
    | Except.error msg => Except.error (ThrownErr.nodeOp env.node (notValidJsonMsg msg))
  else
    Except.ok { id := none, code := none }

/-- The body of runFunction, instrumented with the number of calls made to
the execution engine's execute operation.  Resolve the workflow reference,
compose the raw data, delegate to the merge transform, call the engine once
(wrapping a rejection into a NodeOperationError carrying the original message
and the node identity), then perform the tolerant extraction and throw the
missing-field error when the named property is absent. -/
def runFunctionAux (env : Env) (cfg : Config) (query : String) :
    Except ThrownErr JValue × Nat :=
  match resolveWorkflowInfo env cfg with
  | Except.error e => (Except.error e, 0)
  | Except.ok workflowInfo =>
    match env.mergeExecute (baseItem query) cfg.fields (composeRawData query cfg.fields) with
    | Except.error msg => (Except.error (ThrownErr.raw msg), 0)
    | Except.ok newItem =>
      match env.executeWorkflow workflowInfo [newItem] with
      | Except.error msg => (Except.error (ThrownErr.nodeOp env.node msg), 1)
      | Except.ok receivedData =>
        match jvGet receivedData (responsePath cfg.responsePropertyName) with
        | none =>
          (Except.error (ThrownErr.nodeOp env.node (missingFieldMsg cfg.responsePropertyName)), 1)
        | some v => (Except.ok v, 1)

/-- runFunction as the tool adapter sees it: the fallible pipeline's outcome,
the extracted value still of unconstrained runtime type. -/
def runFunction (env : Env) (cfg : Config) (query : String) :
    Except ThrownErr JValue :=
  (runFunctionAux env cfg query).1

/-- One provenance event: the input record with its correlation index, or an
output record (success payload or error) with the index it answers. -/
inductive TraceEvent where
  | input (index : Nat) (query : String)
  | outputOk (index : Nat) (response : String)
  | outputErr (index : Nat) (error : ThrownErr)
deriving Repr

/-- Correlation index of a provenance event. -/
def eventIndex : TraceEvent → Nat
  | TraceEvent.input i _ => i
  | TraceEvent.outputOk i _ => i
  | TraceEvent.outputErr i _ => i

/-- Whether a provenance event is an output event. -/
def isOutputEvent : TraceEvent → Bool
  | TraceEvent.input _ _ => false
  | TraceEvent.outputOk _ _ => true
  | TraceEvent.outputErr _ _ => true

/-- Modelled from the spec: the host's provenance ledger behind addInputData
and addOutputData (section 6): recordInput returns a fresh correlation index,
events accumulate in call order. -/
structure ProvState where
  nextIndex : Nat
  events : List TraceEvent
deriving Repr

/-- Modelled from the spec: addInputData logs the input payload and returns
the invocation's correlation index. -/
def addInputData (s : ProvState) (query : String) : Nat × ProvState :=
  (s.nextIndex,
   { nextIndex := s.nextIndex + 1,
     events := s.events ++ [TraceEvent.input s.nextIndex query] })

/-- Modelled from the spec: addOutputData with a success payload. -/
def addOutputDataOk (s : ProvState) (i : Nat) (response : String) : ProvState :=
  { nextIndex := s.nextIndex, events := s.events ++ [TraceEvent.outputOk i response] }

/-- Modelled from the spec: addOutputData with an execution error. -/
def addOutputDataErr (s : ProvState) (i : Nat) (e : ThrownErr) : ProvState :=
  { nextIndex := s.nextIndex, events := s.events ++ [TraceEvent.outputErr i e] }

/-- The DynamicTool func: log the input and obtain the correlation index, run
the fallible pipeline under a catch that folds a thrown error into the
error-response text, convert a numeric response to its decimal string, replace
any remaining non-string response by an InvalidResponseTypeError and its text,
log exactly one output event under the same index (the error when one was
recorded, the success payload otherwise) and return the text.  The result
lives in Except so that an escaping exception would show as an error value;
the adapter's catch guarantees this branch is never taken. -/
def func (env : Env) (cfg : Config) (s : ProvState) (query : String) :
    Except ThrownErr (String × ProvState) :=
  let ip := addInputData s query
  let index := ip.1
  let s1 := ip.2
  let caught : JValue × Option ThrownErr :=
    match runFunction env cfg query with
    | Except.ok r => (r, none)
    | Except.error e => (JValue.vStr (errorResponseText e.message), some e)
  let resp1 : JValue :=
    match caught.1 with
    | JValue.vNum n => JValue.vStr (numToString n)
    | v => v
  let norm : String × Option ThrownErr :=
    match resp1 with
    | JValue.vStr str => (str, caught.2)
    | v =>
      (errorResponseText (invalidTypeMsg (jsTypeof v)),
       some (ThrownErr.nodeOp env.node (invalidTypeMsg (jsTypeof v))))
  let s2 : ProvState :=
    match norm.2 with
    | some e => addOutputDataErr s1 index e
    | none => addOutputDataOk s1 index norm.1
  Except.ok (norm.1, s2)

/-- Containment of one string in another, witnessed by a decomposition. -/
def strContainsSub (hay pat : String) : Prop :=
  ∃ a b, hay = a ++ pat ++ b

/-- Evaluation of func when the pipeline throws: the error is caught, folded
into the error-response text, and the output event records the error under the
input event's index. -/
theorem func_of_run_err (env : Env) (cfg : Config) (s : ProvState) (q : String)
    (e : ThrownErr) (hr : runFunction env cfg q = Except.error e) :
    func env cfg s q =
      Except.ok (errorResponseText e.message,
        { nextIndex := s.nextIndex + 1,
          events := s.events ++
            [TraceEvent.input s.nextIndex q,
             TraceEvent.outputErr s.nextIndex e] }) := by
  simp [func, hr, addInputData, addOutputDataErr]

/-- Evaluation of func when the pipeline extracts a string: returned verbatim
with a success output event. -/
theorem func_of_run_str (env : Env) (cfg : Config) (s : ProvState) (q : String)
    (str : String) (hr : runFunction env cfg q = Except.ok (JValue.vStr str)) :
    func env cfg s q =
      Except.ok (str,
        { nextIndex := s.nextIndex + 1,
          events := s.events ++
            [TraceEvent.input s.nextIndex q,
             TraceEvent.outputOk s.nextIndex str] }) := by
  simp [func, hr, addInputData, addOutputDataOk]

/-- Evaluation of func when the pipeline extracts a number: converted to its
decimal string with a success output event. -/
theorem func_of_run_num (env : Env) (cfg : Config) (s : ProvState) (q : String)
    (n : Int) (hr : runFunction env cfg q = Except.ok (JValue.vNum n)) :
    func env cfg s q =
      Except.ok (numToString n,
        { nextIndex := s.nextIndex + 1,
          events := s.events ++
            [TraceEvent.input s.nextIndex q,
             TraceEvent.outputOk s.nextIndex (numToString n)] }) := by
  simp [func, hr, addInputData, addOutputDataOk]

/-- Evaluation of func when the pipeline extracts a value that is neither a
string nor a number: the InvalidResponseTypeError is produced, its text
returned, and the output event records the error. -/
theorem func_of_run_bad (env : Env) (cfg : Config) (s : ProvState) (q : String)
    (v : JValue) (hr : runFunction env cfg q = Except.ok v)
    (h1 : jsTypeof v ≠ "string") (h2 : jsTypeof v ≠ "number") :
    func env cfg s q =
      Except.ok (errorResponseText (invalidTypeMsg (jsTypeof v)),
        { nextIndex := s.nextIndex + 1,
          events := s.events ++
            [TraceEvent.input s.nextIndex q,
             TraceEvent.outputErr s.nextIndex
               (ThrownErr.nodeOp env.node (invalidTypeMsg (jsTypeof v)))] }) := by
  cases v <;> simp_all [func, jsTypeof, addInputData, addOutputDataErr]

/-- Lookup after the in-place replacement finds the new value when the key was
present. -/
theorem lookupKey_map_assign (m : List (String × JValue)) (k : String) (v : JValue) :
    m.any (fun p => p.1 = k) = true →
    lookupKey (m.map (assignEntry k v)) k = some v := by
  induction m with
  | nil => intro h; simp at h
  | cons hd tl ih =>
    intro h
    obtain ⟨k1, v1⟩ := hd
    rw [List.map_cons]
    by_cases hk : k1 = k
    · rw [show assignEntry k v (k1, v1) = (k, v) from by simp [assignEntry, hk]]
      simp [lookupKey]
    · rw [show assignEntry k v (k1, v1) = (k1, v1) from by simp [assignEntry, hk]]
      have hstep : lookupKey ((k1, v1) :: tl.map (assignEntry k v)) k
          = lookupKey (tl.map (assignEntry k v)) k := by
        simp [lookupKey, hk]
      rw [hstep]
      apply ih
      simp only [List.any_cons, Bool.or_eq_true, decide_eq_true_eq] at h
      rcases h with h | h
      · exact absurd h hk
      · exact h

/-- Lookup distributes over record concatenation, preferring the left part. -/
theorem lookupKey_append (m l : List (String × JValue)) (k : String) :
    lookupKey (m ++ l) k =
      match lookupKey m k with
      | some v => some v
      | none => lookupKey l k := by
  induction m with
  | nil => rfl
  | cons hd tl ih =>
    obtain ⟨k1, v1⟩ := hd
    by_cases hk : k1 = k
    · simp [lookupKey, hk]
    · simp [lookupKey, hk, ih]

/-- Lookup of an absent key yields none. -/
theorem lookupKey_not_found (m : List (String × JValue)) (k : String)
    (h : m.any (fun p => p.1 = k) = false) :
    lookupKey m k = none := by
  induction m with
  | nil => rfl
  | cons hd tl ih =>
    obtain ⟨k1, v1⟩ := hd
    simp only [List.any_cons, Bool.or_eq_false_iff, decide_eq_false_iff_not] at h
    simp [lookupKey, h.1, ih h.2]

/-- Assignment followed by lookup of the same key yields the assigned value. -/
theorem lookupKey_setKey (m : List (String × JValue)) (k : String) (v : JValue) :
    lookupKey (setKey m k v) k = some v := by
  unfold setKey
  split
  · next h => exact lookupKey_map_assign m k v h
  · next h =>
    rw [lookupKey_append, lookupKey_not_found m k (Bool.eq_false_iff.mpr h)]
    simp [lookupKey]

/-- In-place replacement under one key does not change lookups of another. -/
theorem lookupKey_map_assign_other (m : List (String × JValue)) (k2 k : String)
    (v : JValue) (h : k2 ≠ k) :
    lookupKey (m.map (assignEntry k2 v)) k = lookupKey m k := by
  induction m with
  | nil => rfl
  | cons hd tl ih =>
    obtain ⟨k1, v1⟩ := hd
    rw [List.map_cons]
    by_cases hk : k1 = k2
    · rw [show assignEntry k2 v (k1, v1) = (k2, v) from by simp [assignEntry, hk]]
      have h1 : lookupKey ((k2, v) :: tl.map (assignEntry k2 v)) k
          = lookupKey (tl.map (assignEntry k2 v)) k := by
        simp [lookupKey, h]
      have h2 : lookupKey ((k1, v1) :: tl) k = lookupKey tl k := by
        simp [lookupKey, hk ▸ h]
      rw [h1, h2, ih]
    · rw [show assignEntry k2 v (k1, v1) = (k1, v1) from by simp [assignEntry, hk]]
      by_cases hk2 : k1 = k
      · simp [lookupKey, hk2]
      · simp [lookupKey, hk2, ih]

/-- Assignment under one key does not change lookups of another. -/
theorem lookupKey_setKey_other (m : List (String × JValue)) (k2 k : String)
    (v : JValue) (h : k2 ≠ k) :
    lookupKey (setKey m k2 v) k = lookupKey m k := by
  unfold setKey
  split
  · exact lookupKey_map_assign_other m k2 k v h
  · rw [lookupKey_append]
    cases hm : lookupKey m k with
    | some w => rfl
    | none => simp [lookupKey, h]

/-- The Set-node loop over overrides none of which bears a given name leaves
that name's entry unchanged. -/
theorem lookupKey_foldl_other (l : List SetField) (m : List (String × JValue))
    (k : String) (h : ∀ e ∈ l, e.name ≠ k) :
    lookupKey (l.foldl applyField m) k = lookupKey m k := by
  induction l generalizing m with
  | nil => rfl
  | cons hd tl ih =>
    rw [List.foldl_cons]
    rw [ih _ (fun e he => h e (List.mem_cons_of_mem _ he))]
    unfold applyField
    split
    · exact lookupKey_setKey_other _ _ _ _ (h hd (List.mem_cons_self _ _))
    · rfl

/-- An objectValue override whose raw value starts with an expression marker,
not shadowed by a later override of the same name, puts the marker-stripped
raw string under its name in the composed raw-data record. -/
theorem composeRawData_override (q : String) (pre post : List SetField)
    (f : SetField) (hty : f.type = "objectValue")
    (hmark : startsWithMarker f.objectValue = true)
    (hpost : ∀ g ∈ post, g.name ≠ f.name) :
    lookupKey (composeRawData q (pre ++ f :: post)) f.name =
      some (JValue.vStr (stripMarkers f.objectValue)) := by
  unfold composeRawData
  rw [List.foldl_append, List.foldl_cons]
  rw [lookupKey_foldl_other post _ _ hpost]
  unfold applyField
  rw [if_pos ⟨hty, hmark⟩]
  exact lookupKey_setKey _ _ _

/-- Containment is transitive. -/
theorem strContainsSub_trans (c b a : String) (h1 : strContainsSub b a)
    (h2 : strContainsSub c b) : strContainsSub c a := by
  obtain ⟨p1, s1, rfl⟩ := h1
  obtain ⟨p2, s2, rfl⟩ := h2
  exact ⟨p2 ++ p1, s1 ++ s2, by simp [String.append_assoc]⟩

/-- The error-response text contains the wrapped message. -/
theorem errText_contains_self (m : String) :
    strContainsSub (errorResponseText m) m :=
  ⟨"There was an error: \"", "\"", rfl⟩

/-- The error-response text contains the template marker. -/
theorem errText_contains_marker (m : String) :
    strContainsSub (errorResponseText m) "There was an error:" := by
  refine ⟨"", " \"" ++ m ++ "\"", ?_⟩
  unfold errorResponseText
  rw [String.empty_append]
  simp only [String.append_assoc]
  rw [← String.append_assoc "There was an error:" " \"" (m ++ "\"")]
  rfl

/-- The error-response text around the missing-field message contains the
phrase naming the configured property. -/
theorem missingResp_contains (n : String) :
    strContainsSub (errorResponseText (missingFieldMsg n))
      ("did not return an item with the property \x27" ++ n ++ "\x27") := by
  refine ⟨"There was an error: \"There was an error: \"The workflow ", "\"\"", ?_⟩
  unfold errorResponseText missingFieldMsg
  simp only [String.append_assoc]
  rw [show ("\x27\"" : String) ++ "\"" = "\x27\"\"" from rfl]
  rw [show ("\x27" : String) ++ "\"\"" = "\x27\"\"" from rfl]
  rw [← String.append_assoc "There was an error: \""
    "There was an error: \"The workflow did not return an item with the property \x27"]
  rw [← String.append_assoc "There was an error: \"There was an error: \"The workflow "
    "did not return an item with the property \x27"]
  rfl

/-- C1: for every collaborator behaviour, configuration, provenance state and
string query, invoke resolves to a string: the adapter's catch folds every
pipeline exception into text, so no exception propagates past the Tool
Adapter boundary. -/
theorem claim_C1_invoke_never_rejects (env : Env) (cfg : Config) (s : ProvState)
    (q : String) : ∃ out : String × ProvState, func env cfg s q = Except.ok out :=
  ⟨_, rfl⟩

/-- C2: every invocation records exactly one input event and exactly one
output event, on every exit path, and the output event carries the
correlation index returned by the input event. -/
theorem claim_C2_provenance_paired (env : Env) (cfg : Config) (s : ProvState)
    (q : String) :
    ∃ (r : String) (tr : ProvState) (ev : TraceEvent),
      func env cfg s q = Except.ok (r, tr) ∧
      tr.events = s.events ++ [TraceEvent.input s.nextIndex q, ev] ∧
      isOutputEvent ev = true ∧ eventIndex ev = s.nextIndex := by
  cases hr : runFunction env cfg q with
  | error e =>
    refine ⟨_, _, TraceEvent.outputErr s.nextIndex e,
      func_of_run_err env cfg s q e hr, ?_, rfl, rfl⟩
    simp
  | ok v =>
    cases v with
    | vStr str =>
      refine ⟨_, _, TraceEvent.outputOk s.nextIndex str,
        func_of_run_str env cfg s q str hr, ?_, rfl, rfl⟩
      simp
    | vNum n =>
      refine ⟨_, _, TraceEvent.outputOk s.nextIndex (numToString n),
        func_of_run_num env cfg s q n hr, ?_, rfl, rfl⟩
      simp
    | vBool b =>
      refine ⟨_, _, TraceEvent.outputErr s.nextIndex
          (ThrownErr.nodeOp env.node (invalidTypeMsg (jsTypeof (JValue.vBool b)))),
        func_of_run_bad env cfg s q _ hr (by simp [jsTypeof]) (by simp [jsTypeof]), ?_, rfl, rfl⟩
      simp
    | vObj fs =>
      refine ⟨_, _, TraceEvent.outputErr s.nextIndex
          (ThrownErr.nodeOp env.node (invalidTypeMsg (jsTypeof (JValue.vObj fs)))),
        func_of_run_bad env cfg s q _ hr (by simp [jsTypeof]) (by simp [jsTypeof]), ?_, rfl, rfl⟩
      simp
    | vArr xs =>
      refine ⟨_, _, TraceEvent.outputErr s.nextIndex
          (ThrownErr.nodeOp env.node (invalidTypeMsg (jsTypeof (JValue.vArr xs)))),
        func_of_run_bad env cfg s q _ hr (by simp [jsTypeof]) (by simp [jsTypeof]), ?_, rfl, rfl⟩
      simp
    | vNull =>
      refine ⟨_, _, TraceEvent.outputErr s.nextIndex
          (ThrownErr.nodeOp env.node (invalidTypeMsg (jsTypeof JValue.vNull))),
        func_of_run_bad env cfg s q _ hr (by simp [jsTypeof]) (by simp [jsTypeof]), ?_, rfl, rfl⟩
      simp

/-- C3: the extractor's tolerant lookup propagates a missing intermediate
level as absent rather than raising, and whenever the configured response
property is absent from the engine's result the pipeline fails with the
missing-field NodeOperationError naming the property, while invoke still
resolves to a string containing the phrase naming that property. -/
theorem claim_C3_missing_response_property (env : Env) (cfg : Config)
    (s : ProvState) (q : String) (item data w : JValue) (p : PathKey)
    (rest : List PathKey)
    (hstep : jvGetStep w p = none)
    (hsrc : cfg.source = "database")
    (hmerge : env.mergeExecute (baseItem q) cfg.fields (composeRawData q cfg.fields)
      = Except.ok item)
    (hexec : env.executeWorkflow { id := some cfg.workflowId, code := none } [item]
      = Except.ok data)
    (habsent : jvGet data (responsePath cfg.responsePropertyName) = none) :
    jvGet w (p :: rest) = none ∧
    runFunction env cfg q =
      Except.error (ThrownErr.nodeOp env.node (missingFieldMsg cfg.responsePropertyName)) ∧
    (∃ tr, func env cfg s q =
      Except.ok (errorResponseText (missingFieldMsg cfg.responsePropertyName), tr)) ∧
    strContainsSub (errorResponseText (missingFieldMsg cfg.responsePropertyName))
      ("did not return an item with the property \x27" ++ cfg.responsePropertyName ++ "\x27") := by
  have hrun : runFunction env cfg q =
      Except.error (ThrownErr.nodeOp env.node (missingFieldMsg cfg.responsePropertyName)) := by
    simp [runFunction, runFunctionAux, resolveWorkflowInfo, hsrc, hmerge, hexec, habsent]
  refine ⟨by simp [jvGet, hstep], hrun, ⟨_, func_of_run_err env cfg s q _ hrun⟩, ?_⟩
  exact missingResp_contains cfg.responsePropertyName

/-- Concrete environment for the missing-property scenario: the engine
returns one branch with one item whose json lacks the configured property. -/
def envC3 : Env :=
  { node := "Workflow Tool",
    jsonParse := fun _ => Except.error "x",
    mergeExecute := fun _ _ _ => Except.ok JValue.vNull,
    executeWorkflow := fun _ _ => Except.ok
      (JValue.vArr [JValue.vArr
        [JValue.vObj [("json", JValue.vObj [("other", JValue.vStr "x")])]]]) }

/-- Concrete configuration for the missing-property scenario. -/
def cfgC3 : Config :=
  { source := "database", responsePropertyName := "result", workflowId := "wf1",
    workflowJson := "", fields := [] }

/-- Witness for C3 at a concrete input. -/
theorem claim_C3_missing_response_property_witness :
    jvGet JValue.vNull [PathKey.key "x"] = none ∧
    runFunction envC3 cfgC3 "q" =
      Except.error (ThrownErr.nodeOp "Workflow Tool" (missingFieldMsg "result")) ∧
    (∃ tr, func envC3 cfgC3 ⟨0, []⟩ "q" =
      Except.ok (errorResponseText (missingFieldMsg "result"), tr)) ∧
    strContainsSub (errorResponseText (missingFieldMsg "result"))
      ("did not return an item with the property \x27" ++ "result" ++ "\x27") :=
  claim_C3_missing_response_property envC3 cfgC3 ⟨0, []⟩ "q" JValue.vNull
    (JValue.vArr [JValue.vArr
      [JValue.vObj [("json", JValue.vObj [("other", JValue.vStr "x")])]]])
    JValue.vNull (PathKey.key "x") [] rfl rfl rfl rfl rfl

/-- C4: a rejection of the engine's execute call is wrapped into a
NodeOperationError carrying the original message and the invoking node's
identity, the engine is called exactly once (never retried), and invoke still
resolves to a string containing the templated original message. -/
theorem claim_C4_engine_rejection_wrapped (env : Env) (cfg : Config)
    (s : ProvState) (q : String) (wfInfo : WorkflowInfo) (item : JValue)
    (msg : String)
    (hres : resolveWorkflowInfo env cfg = Except.ok wfInfo)
    (hmerge : env.mergeExecute (baseItem q) cfg.fields (composeRawData q cfg.fields)
      = Except.ok item)
    (hexec : env.executeWorkflow wfInfo [item] = Except.error msg) :
    runFunction env cfg q = Except.error (ThrownErr.nodeOp env.node msg) ∧
    (runFunctionAux env cfg q).2 = 1 ∧
    (∃ tr, func env cfg s q = Except.ok (errorResponseText msg, tr)) ∧
    strContainsSub (errorResponseText msg) ("There was an error: \"" ++ msg ++ "\"") := by
  have haux : runFunctionAux env cfg q =
      (Except.error (ThrownErr.nodeOp env.node msg), 1) := by
    simp [runFunctionAux, hres, hmerge, hexec]
  have hrun : runFunction env cfg q = Except.error (ThrownErr.nodeOp env.node msg) := by
    simp [runFunction, haux]
  refine ⟨hrun, by simp [haux], ⟨_, func_of_run_err env cfg s q _ hrun⟩, ?_⟩
  exact ⟨"", "", by simp [errorResponseText, String.empty_append, String.append_empty]⟩

/-- Concrete environment for the engine-rejection scenario. -/
def envC4 : Env :=
  { node := "Workflow Tool",
    jsonParse := fun _ => Except.error "x",
    mergeExecute := fun _ _ _ => Except.ok JValue.vNull,
    executeWorkflow := fun _ _ => Except.error "boom" }

/-- Concrete configuration for the engine-rejection scenario. -/
def cfgC4 : Config :=
  { source := "database", responsePropertyName := "response", workflowId := "wf1",
    workflowJson := "", fields := [] }

/-- Witness for C4 at a concrete input with rejection message boom. -/
theorem claim_C4_engine_rejection_wrapped_witness :
    runFunction envC4 cfgC4 "q" =
      Except.error (ThrownErr.nodeOp "Workflow Tool" "boom") ∧
    (runFunctionAux envC4 cfgC4 "q").2 = 1 ∧
    (∃ tr, func envC4 cfgC4 ⟨0, []⟩ "q" = Except.ok (errorResponseText "boom", tr)) ∧
    strContainsSub (errorResponseText "boom") ("There was an error: \"" ++ "boom" ++ "\"") :=
  claim_C4_engine_rejection_wrapped envC4 cfgC4 ⟨0, []⟩ "q"
    { id := some "wf1", code := none } JValue.vNull "boom" rfl rfl rfl

/-- C5: with source parameter and an unparseable workflow document, the
pipeline fails with the ConfigurationError carrying the parser's message, the
engine is never called, and invoke still resolves to a string derived from
that parse-error message. -/
theorem claim_C5_invalid_workflow_json (env : Env) (cfg : Config)
    (s : ProvState) (q : String) (msg : String)
    (hsrc : cfg.source = "parameter")
    (hparse : env.jsonParse cfg.workflowJson = Except.error msg) :
    runFunction env cfg q =
      Except.error (ThrownErr.nodeOp env.node (notValidJsonMsg msg)) ∧
    (runFunctionAux env cfg q).2 = 0 ∧
    (∃ tr, func env cfg s q =
      Except.ok (errorResponseText (notValidJsonMsg msg), tr)) := by
  have haux : runFunctionAux env cfg q =
      (Except.error (ThrownErr.nodeOp env.node (notValidJsonMsg msg)), 0) := by
    simp [runFunctionAux, resolveWorkflowInfo, hsrc, hparse]
  have hrun : runFunction env cfg q =
      Except.error (ThrownErr.nodeOp env.node (notValidJsonMsg msg)) := by
    simp [runFunction, haux]
  exact ⟨hrun, by simp [haux], ⟨_, func_of_run_err env cfg s q _ hrun⟩⟩

/-- Concrete environment for the unparseable-document scenario. -/
def envC5 : Env :=
  { node := "Workflow Tool",
    jsonParse := fun _ => Except.error "Unexpected token n in JSON",
    mergeExecute := fun _ _ _ => Except.ok JValue.vNull,
    executeWorkflow := fun _ _ => Except.ok JValue.vNull }

/-- Concrete configuration with an inline document that is not valid JSON. -/
def cfgC5 : Config :=
  { source := "parameter", responsePropertyName := "response", workflowId := "",
    workflowJson := "\x7bnot valid json", fields := [] }

/-- Witness for C5 at a concrete input. -/
theorem claim_C5_invalid_workflow_json_witness :
    runFunction envC5 cfgC5 "q" =
      Except.error (ThrownErr.nodeOp "Workflow Tool"
        (notValidJsonMsg "Unexpected token n in JSON")) ∧
    (runFunctionAux envC5 cfgC5 "q").2 = 0 ∧
    (∃ tr, func envC5 cfgC5 ⟨0, []⟩ "q" =
      Except.ok (errorResponseText (notValidJsonMsg "Unexpected token n in JSON"), tr)) :=
  claim_C5_invalid_workflow_json envC5 cfgC5 ⟨0, []⟩ "q"
    "Unexpected token n in JSON" rfl rfl

/-- The failed-extraction response text spelled out: the template appears
twice, the outer application wrapping the extractor's own templated message. -/
theorem errText_missing_double (n : String) :
    errorResponseText (missingFieldMsg n) =
      "There was an error: \"" ++ ("There was an error: \"" ++
        ("The workflow did not return an item with the property \x27" ++ (n ++ "\x27\"\""))) := by
  unfold errorResponseText missingFieldMsg
  simp only [String.append_assoc]
  rw [show ("\x27\"" : String) ++ "\"" = "\x27\"\"" from rfl]
  rw [← String.append_assoc "There was an error: \""
    "The workflow did not return an item with the property \x27" (n ++ "\x27\"\"")]
  rfl

/-- C9: when extraction finds the configured property absent, the resolved
string carries the error template twice: the extractor's message already
begins with the template and the adapter's catch wraps it in the template
again. -/
theorem claim_C9_template_applied_twice (env : Env) (cfg : Config)
    (s : ProvState) (q : String) (item data : JValue)
    (hsrc : cfg.source = "database")
    (hmerge : env.mergeExecute (baseItem q) cfg.fields (composeRawData q cfg.fields)
      = Except.ok item)
    (hexec : env.executeWorkflow { id := some cfg.workflowId, code := none } [item]
      = Except.ok data)
    (habsent : jvGet data (responsePath cfg.responsePropertyName) = none) :
    ∃ tr, func env cfg s q =
      Except.ok ("There was an error: \"" ++ ("There was an error: \"" ++
        ("The workflow did not return an item with the property \x27" ++
          (cfg.responsePropertyName ++ "\x27\"\""))), tr) := by
  have hrun : runFunction env cfg q =
      Except.error (ThrownErr.nodeOp env.node (missingFieldMsg cfg.responsePropertyName)) := by
    simp [runFunction, runFunctionAux, resolveWorkflowInfo, hsrc, hmerge, hexec, habsent]
  have hfunc := func_of_run_err env cfg s q _ hrun
  simp only [ThrownErr.message] at hfunc
  rw [errText_missing_double cfg.responsePropertyName] at hfunc
  exact ⟨_, hfunc⟩

/-- Concrete environment for the doubled-template scenario. -/
def envC9 : Env :=
  { node := "Workflow Tool",
    jsonParse := fun _ => Except.error "x",
    mergeExecute := fun _ _ _ => Except.ok JValue.vNull,
    executeWorkflow := fun _ _ => Except.ok
      (JValue.vArr [JValue.vArr [JValue.vObj [("json", JValue.vObj [])]]]) }

/-- Concrete configuration for the doubled-template scenario. -/
def cfgC9 : Config :=
  { source := "database", responsePropertyName := "response", workflowId := "wf1",
    workflowJson := "", fields := [] }

/-- Witness for C9 at a concrete input. -/
theorem claim_C9_template_applied_twice_witness :
    ∃ tr, func envC9 cfgC9 ⟨0, []⟩ "q" =
      Except.ok ("There was an error: \"" ++ ("There was an error: \"" ++
        ("The workflow did not return an item with the property \x27" ++
          ("response" ++ "\x27\"\""))), tr) :=
  claim_C9_template_applied_twice envC9 cfgC9 ⟨0, []⟩ "q" JValue.vNull
    (JValue.vArr [JValue.vArr [JValue.vObj [("json", JValue.vObj [])]]])
    rfl rfl rfl rfl

/-- C6: a numeric extracted value is converted to its decimal string form and
the invocation is treated as a success, with a success output event recording
the converted text. -/
theorem claim_C6_numeric_response_converted (env : Env) (cfg : Config)
    (s : ProvState) (q : String) (wfInfo : WorkflowInfo) (item data : JValue)
    (n : Int)
    (hres : resolveWorkflowInfo env cfg = Except.ok wfInfo)
    (hmerge : env.mergeExecute (baseItem q) cfg.fields (composeRawData q cfg.fields)
      = Except.ok item)
    (hexec : env.executeWorkflow wfInfo [item] = Except.ok data)
    (hget : jvGet data (responsePath cfg.responsePropertyName)
      = some (JValue.vNum n)) :
    runFunction env cfg q = Except.ok (JValue.vNum n) ∧
    func env cfg s q =
      Except.ok (numToString n,
        { nextIndex := s.nextIndex + 1,
          events := s.events ++
            [TraceEvent.input s.nextIndex q,
             TraceEvent.outputOk s.nextIndex (numToString n)] }) := by
  have hrun : runFunction env cfg q = Except.ok (JValue.vNum n) := by
    simp [runFunction, runFunctionAux, hres, hmerge, hexec, hget]
  exact ⟨hrun, func_of_run_num env cfg s q n hrun⟩

/-- Concrete environment for the numeric-response scenario: the engine
returns an item whose response property is the number 42. -/
def envC6 : Env :=
  { node := "Workflow Tool",
    jsonParse := fun _ => Except.error "x",
    mergeExecute := fun _ _ _ => Except.ok JValue.vNull,
    executeWorkflow := fun _ _ => Except.ok
      (JValue.vArr [JValue.vArr
        [JValue.vObj [("json", JValue.vObj [("response", JValue.vNum 42)])]]]) }

/-- Concrete configuration for the numeric-response scenario. -/
def cfgC6 : Config :=
  { source := "database", responsePropertyName := "response", workflowId := "wf1",
    workflowJson := "", fields := [] }

/-- Witness for C6: the resolved string is exactly the decimal form 42. -/
theorem claim_C6_numeric_response_converted_witness :
    runFunction envC6 cfgC6 "q" = Except.ok (JValue.vNum 42) ∧
    func envC6 cfgC6 ⟨0, []⟩ "q" =
      Except.ok ("42",
        { nextIndex := 1,
          events := [TraceEvent.input 0 "q", TraceEvent.outputOk 0 "42"] }) :=
  claim_C6_numeric_response_converted envC6 cfgC6 ⟨0, []⟩ "q"
    { id := some "wf1", code := none } JValue.vNull
    (JValue.vArr [JValue.vArr
      [JValue.vObj [("json", JValue.vObj [("response", JValue.vNum 42)])]]])
    42 rfl rfl rfl rfl

/-- C7: an extracted value that is neither a string nor numeric is treated as
a failure carrying the InvalidResponseTypeError naming the runtime type, the
error output event is recorded, and the resolved string contains both the
runtime type name and the error template marker. -/
theorem claim_C7_invalid_response_type (env : Env) (cfg : Config)
    (s : ProvState) (q : String) (wfInfo : WorkflowInfo) (item data v : JValue)
    (hres : resolveWorkflowInfo env cfg = Except.ok wfInfo)
    (hmerge : env.mergeExecute (baseItem q) cfg.fields (composeRawData q cfg.fields)
      = Except.ok item)
    (hexec : env.executeWorkflow wfInfo [item] = Except.ok data)
    (hget : jvGet data (responsePath cfg.responsePropertyName) = some v)
    (h1 : jsTypeof v ≠ "string") (h2 : jsTypeof v ≠ "number") :
    func env cfg s q =
      Except.ok (errorResponseText (invalidTypeMsg (jsTypeof v)),
        { nextIndex := s.nextIndex + 1,
          events := s.events ++
            [TraceEvent.input s.nextIndex q,
             TraceEvent.outputErr s.nextIndex
               (ThrownErr.nodeOp env.node (invalidTypeMsg (jsTypeof v)))] }) ∧
    strContainsSub (errorResponseText (invalidTypeMsg (jsTypeof v))) (jsTypeof v) ∧
    strContainsSub (errorResponseText (invalidTypeMsg (jsTypeof v)))
      "There was an error:" := by
  have hrun : runFunction env cfg q = Except.ok v := by
    simp [runFunction, runFunctionAux, hres, hmerge, hexec, hget]
  refine ⟨func_of_run_bad env cfg s q v hrun h1 h2, ?_, errText_contains_marker _⟩
  exact strContainsSub_trans _ _ _
    ⟨"The code did not return a valid value. Instead of a string did a value of type \x27",
     "\x27 get returned.", rfl⟩
    (errText_contains_self _)

/-- Concrete environment for the object-response scenario: the engine
returns an item whose response property is a nested object. -/
def envC7 : Env :=
  { node := "Workflow Tool",
    jsonParse := fun _ => Except.error "x",
    mergeExecute := fun _ _ _ => Except.ok JValue.vNull,
    executeWorkflow := fun _ _ => Except.ok
      (JValue.vArr [JValue.vArr
        [JValue.vObj [("json", JValue.vObj
          [("response", JValue.vObj [("nested", JValue.vBool true)])])]]]) }

/-- Concrete configuration for the object-response scenario. -/
def cfgC7 : Config :=
  { source := "database", responsePropertyName := "response", workflowId := "wf1",
    workflowJson := "", fields := [] }

/-- Witness for C7 at a concrete input where the extracted value is an
object. -/
theorem claim_C7_invalid_response_type_witness :
    func envC7 cfgC7 ⟨0, []⟩ "q" =
      Except.ok (errorResponseText (invalidTypeMsg "object"),
        { nextIndex := 1,
          events := [TraceEvent.input 0 "q",
            TraceEvent.outputErr 0
              (ThrownErr.nodeOp "Workflow Tool" (invalidTypeMsg "object"))] }) ∧
    strContainsSub (errorResponseText (invalidTypeMsg "object")) "object" ∧
    strContainsSub (errorResponseText (invalidTypeMsg "object"))
      "There was an error:" :=
  claim_C7_invalid_response_type envC7 cfgC7 ⟨0, []⟩ "q"
    { id := some "wf1", code := none } JValue.vNull
    (JValue.vArr [JValue.vArr
      [JValue.vObj [("json", JValue.vObj
        [("response", JValue.vObj [("nested", JValue.vBool true)])])]]])
    (JValue.vObj [("nested", JValue.vBool true)])
    rfl rfl rfl rfl (by simp [jsTypeof]) (by simp [jsTypeof])

/-- C8: an objectValue override whose raw value begins with expression
markers has all leading markers stripped and the remaining raw string stored
unevaluated under the override's name in the composed raw-data record (any
later override of the same name would overwrite, so none is assumed). -/
theorem claim_C8_object_override_unevaluated (q : String)
    (pre post : List SetField) (f : SetField)
    (hty : f.type = "objectValue")
    (hmark : startsWithMarker f.objectValue = true)
    (hpost : ∀ g ∈ post, g.name ≠ f.name) :
    lookupKey (composeRawData q (pre ++ f :: post)) f.name =
      some (JValue.vStr (stripMarkers f.objectValue)) :=
  composeRawData_override q pre post f hty hmark hpost

/-- Witness for C8: the sample override stores the raw brace text,
markers stripped and unevaluated. -/
theorem claim_C8_object_override_unevaluated_witness :
    lookupKey
      (composeRawData "hello"
        [{ name := "extra", type := "objectValue", objectValue := "=\x7ba:1\x7d" }])
      "extra" = some (JValue.vStr "\x7ba:1\x7d") :=
  claim_C8_object_override_unevaluated "hello" [] []
    { name := "extra", type := "objectValue", objectValue := "=\x7ba:1\x7d" }
    rfl rfl (by intro g hg; cases hg)

/-- C10: an objectValue override named query whose raw value begins with an
expression marker overwrites the query entry of the raw record handed to the
merge transform: the record maps query to the stripped override string, not
to the agent's query argument. -/
theorem claim_C10_query_override_shadows_input (q : String)
    (pre post : List SetField) (f : SetField)
    (hname : f.name = "query") (hty : f.type = "objectValue")
    (hmark : startsWithMarker f.objectValue = true)
    (hpost : ∀ g ∈ post, g.name ≠ "query")
    (hne : stripMarkers f.objectValue ≠ q) :
    lookupKey (composeRawData q (pre ++ f :: post)) "query" =
      some (JValue.vStr (stripMarkers f.objectValue)) ∧
    lookupKey (composeRawData q (pre ++ f :: post)) "query" ≠
      some (JValue.vStr q) := by
  have h := composeRawData_override q pre post f hty hmark
    (by rw [hname]; exact hpost)
  rw [hname] at h
  refine ⟨h, ?_⟩
  rw [h]
  intro hc
  simp only [Option.some.injEq, JValue.vStr.injEq] at hc
  exact hne hc

/-- Witness for C10: a query-named override replaces the agent's query in the
raw record. -/
theorem claim_C10_query_override_shadows_input_witness :
    lookupKey
      (composeRawData "agent input"
        [{ name := "query", type := "objectValue", objectValue := "=override" }])
      "query" = some (JValue.vStr "override") ∧
    lookupKey
      (composeRawData "agent input"
        [{ name := "query", type := "objectValue", objectValue := "=override" }])
      "query" ≠ some (JValue.vStr "agent input") :=
  claim_C10_query_override_shadows_input "agent input" [] []
    { name := "query", type := "objectValue", objectValue := "=override" }
    rfl rfl rfl (by intro g hg; cases hg) (by decide)
